import Mathlib

set_option maxRecDepth 4000

namespace ArgoModel

/-! Model of the parts of the Python standard library used by the source:
`hashlib.sha1` and `uuid.uuid5` (RFC 4122, version 5), over byte lists. -/

/-- Truncate to a 32-bit word. -/
def w32 (x : Nat) : Nat := x % 4294967296

/-- Left rotation of a 32-bit word. -/
def rotl (n x : Nat) : Nat := w32 ((x <<< n) ||| (x >>> (32 - n)))

/-- SHA-1 round function, selected by round index. -/
def sha1f (i b c d : Nat) : Nat :=
  if i < 20 then (b &&& c) ||| ((b ^^^ 4294967295) &&& d)
  else if i < 40 then (b ^^^ c) ^^^ d
  else if i < 60 then ((b &&& c) ||| (b &&& d)) ||| (c &&& d)
  else (b ^^^ c) ^^^ d

/-- SHA-1 round constant, selected by round index. -/
def sha1k (i : Nat) : Nat :=
  if i < 20 then 1518500249
  else if i < 40 then 1859775393
  else if i < 60 then 2400959708
  else 3395469782

/-- The five 32-bit working registers of SHA-1. -/
structure Sha1State where
  a : Nat
  b : Nat
  c : Nat
  d : Nat
  e : Nat
deriving DecidableEq

/-- Group bytes into big-endian 32-bit words. -/
def toWords : List Nat → List Nat
  | b0 :: b1 :: b2 :: b3 :: rest =>
      (((b0 <<< 24) ||| (b1 <<< 16)) ||| ((b2 <<< 8) ||| b3)) :: toWords rest
  | _ => []

/-- Extend the 16 words of a block to the 80 words of the message schedule. -/
def expandWords (ws : List Nat) : List Nat :=
  (List.range 64).foldl (fun acc _ =>
    let n := acc.length
    acc ++ [rotl 1 (((acc.getD (n - 3) 0) ^^^ (acc.getD (n - 8) 0)) ^^^
                    ((acc.getD (n - 14) 0) ^^^ (acc.getD (n - 16) 0)))]) ws

/-- One SHA-1 round: consume (round index, schedule word). -/
def sha1Round (st : Sha1State) (iw : Nat × Nat) : Sha1State :=
  let t := w32 (rotl 5 st.a + sha1f iw.1 st.b st.c st.d + st.e + sha1k iw.1 + iw.2)
  ⟨t, st.a, rotl 30 st.b, st.c, st.d⟩

/-- Compress one 64-byte block into the running state. -/
def sha1Compress (st : Sha1State) (block : List Nat) : Sha1State :=
  let ws := expandWords (toWords block)
  let r := ((List.range 80).zip ws).foldl sha1Round st
  ⟨w32 (st.a + r.a), w32 (st.b + r.b), w32 (st.c + r.c), w32 (st.d + r.d), w32 (st.e + r.e)⟩

/-- Big-endian 8-byte encoding of the message bit length. -/
def len8 (bitLen : Nat) : List Nat :=
  [(bitLen >>> 56) % 256, (bitLen >>> 48) % 256, (bitLen >>> 40) % 256, (bitLen >>> 32) % 256,
   (bitLen >>> 24) % 256, (bitLen >>> 16) % 256, (bitLen >>> 8) % 256, bitLen % 256]

/-- SHA-1 padding: 0x80, zeros to 56 mod 64, then the 64-bit bit length. -/
def sha1Pad (msg : List Nat) : List Nat :=
  msg ++ 128 :: (List.replicate ((119 - msg.length % 64) % 64) 0 ++ len8 (8 * msg.length))

/-- Fold the compression function over all 64-byte blocks (the fuel bounds the
number of steps; one byte of fuel per input byte is always enough). -/
def sha1Blocks : Nat → Sha1State → List Nat → Sha1State
  | _, st, [] => st
  | 0, st, _ => st
  | fuel + 1, st, l => sha1Blocks fuel (sha1Compress st (l.take 64)) (l.drop 64)

/-- Big-endian byte decomposition of a 32-bit word. -/
def word32Bytes (x : Nat) : List Nat :=
  [(x >>> 24) % 256, (x >>> 16) % 256, (x >>> 8) % 256, x % 256]

/-- SHA-1 of a byte list: 20-byte digest. -/
def sha1 (msg : List Nat) : List Nat :=
  let padded := sha1Pad msg
  let r := sha1Blocks padded.length ⟨1732584193, 4023233417, 2562383102, 271733878, 3285377520⟩
    padded
  word32Bytes r.a ++ (word32Bytes r.b ++ (word32Bytes r.c ++ (word32Bytes r.d ++ word32Bytes r.e)))

/-- UTF-8 encoding of one character (Python `str.encode`). -/
def utf8EncodeChar (c : Char) : List Nat :=
  let n := c.toNat
  if n < 128 then [n]
  else if n < 2048 then [192 ||| (n >>> 6), 128 ||| (n &&& 63)]
  else if n < 65536 then [224 ||| (n >>> 12), 128 ||| ((n >>> 6) &&& 63), 128 ||| (n &&& 63)]
  else [240 ||| (n >>> 18), 128 ||| ((n >>> 12) &&& 63), 128 ||| ((n >>> 6) &&& 63),
        128 ||| (n &&& 63)]

/-- UTF-8 encoding of a string. -/
def utf8Bytes (s : String) : List Nat := (s.data.map utf8EncodeChar).flatten

/-- The bytes of `uuid.NAMESPACE_OID` (6ba7b812-9dad-11d1-80b4-00c04fd430c8). -/
def namespaceOIDBytes : List Nat :=
  [107, 167, 184, 18, 157, 173, 17, 209, 128, 180, 0, 192, 79, 212, 48, 200]

/-- RFC 4122 version-5 UUID bytes: SHA-1 of namespace bytes followed by the
UTF-8 name, truncated to 16 bytes, with the version and variant bits set. -/
def uuid5Bytes (ns : List Nat) (name : String) : List Nat :=
  let d := (sha1 (ns ++ utf8Bytes name)).take 16
  (d.set 6 (((d.getD 6 0) &&& 15) ||| 80)).set 8 (((d.getD 8 0) &&& 63) ||| 128)

/-- Lowercase hex digit. -/
def hexDigit (n : Nat) : Char := if n < 10 then Char.ofNat (48 + n) else Char.ofNat (87 + n)

/-- Two lowercase hex digits of a byte. -/
def byteHex (b : Nat) : String := String.mk [hexDigit (b / 16), hexDigit (b % 16)]

/-- Hex string of a byte list. -/
def hexCat : List Nat → String
  | [] => ""
  | b :: bs => byteHex b ++ hexCat bs

/-- Canonical 8-4-4-4-12 textual form of a 16-byte UUID (Python `str(uuid)`). -/
def uuidFormat (bs : List Nat) : String :=
  hexCat (bs.take 4) ++ "-" ++ hexCat ((bs.drop 4).take 2) ++ "-" ++
    hexCat ((bs.drop 6).take 2) ++ "-" ++ hexCat ((bs.drop 8).take 2) ++ "-" ++
    hexCat (bs.drop 10)

/-- Python `str(uuid.uuid5(ns, name))`. -/
def uuid5str (ns : List Nat) (name : String) : String := uuidFormat (uuid5Bytes ns name)



/-! Model of `ArgoClusterManager` (argo_cluster_manager.py). Side effects are
recorded as an event trace; process control is an `Outcome`. External
collaborators (config objects, installers, cloud and Kubernetes accessors) are
modelled by a `World` of behaviours, since only their call sites are in the
source. -/

/-- Exceptions that can cross the dispatcher boundary. -/
inductive Exc
  | notImplemented (msg : String)
  | generic (msg : String)
  | indexError
deriving DecidableEq

/-- How a call ends: normal return, `sys.exit`, or a propagating exception. -/
inductive Outcome
  | ok
  | exited (code : Nat)
  | raised (e : Exc)
deriving DecidableEq

/-- Observable side effects, in program order. -/
inductive Event
  | printHelp
  | logInfo (msg : String)
  | logException (e : Exc)
  | printMsg (msg : String)
  | printErrorsHeader
  | printInvalidInputBanner
  | printRuntimeFailure (e : Exc)
  | parserError (msg : String)
  | configConstructed (name : String)
  | defaultOrWizard (name : String)
  | validateCalled (name : String)
  | getCallerIdentity (profile : String)
  | collabConstructed (name : String)
  | setClusterProvider
  | collabStart (name : String)
  | loadKubeConfig
  | listNodes
  | setRegion (r : Option String)
  | setZone (z : Option String)
  | cloudInit (target : String)
  | updateAndSaveConfig
  | installAndRunPlatform
  | postInstall
  | persistCreds
  | downloadKubeConfig
  | downloadKubeKey
deriving DecidableEq

/-- The process-wide environment variables written or read by the source. -/
structure PState where
  axCustomerId : Option String
  argoLogBucket : Option String
  argoDataBucket : Option String
  argoKubeConfigPath : Option String
  argoS3AccessKeyId : Option String
  argoS3AccessKeySecret : Option String
  argoS3Endpoint : Option String
deriving DecidableEq

/-- A Kubernetes node as seen by the source: its metadata labels. -/
structure KubeNode where
  labels : List (String × String)
deriving DecidableEq

/-- Behaviour of the external collaborators and raw arguments for one
invocation: what `validate()` returns, the cloud target, the identity service
answer, the relevant flags, the node list, and whether `start()` raises. -/
structure World where
  validateErrors : List String
  cloudProfile : String
  targetCloudAws : Bool
  awsAccount : String
  dryRun : Bool
  clusterName : String
  startExc : Option Exc
  nodes : List KubeNode
  cloudProvider : String
  clusterBucket : String
  kubeconfig : String
  accessKey : String
  secretKey : String
  bucketEndpoint : String

/-- Python truthiness of `os.getenv(..., None)`: `None` and `""` are falsy. -/
def pyTruthy : Option String → Bool
  | none => false
  | some v => v != ""

/-- Model of `ArgoClusterManager._continue_or_die`: on a non-empty error sequence print
a header, each error, a failure banner, and exit with status 1; otherwise
return normally with no output. -/
def continue_or_die (err : List String) : List Event × Outcome :=
  if err.isEmpty then ([], Outcome.ok)
  else (Event.printErrorsHeader :: (err.map Event.printMsg ++ [Event.printInvalidInputBanner]),
        Outcome.exited 1)

/-- Model of `ArgoClusterManager._ensure_customer_id`: if `AX_CUSTOMER_ID` is truthy,
log and return; otherwise, on an AWS target, call the identity service, hash
the account with `uuid5(NAMESPACE_OID, account)` and store it; otherwise do
nothing. -/
def ensure_customer_id (w : World) (st : PState) : PState × List Event :=
  if pyTruthy st.axCustomerId then
    (st, [Event.logInfo ("Using customer ID " ++ st.axCustomerId.getD (""))])
  else if w.targetCloudAws then
    let customer_id := uuid5str namespaceOIDBytes w.awsAccount
    ({ st with axCustomerId := some customer_id },
     [Event.getCallerIdentity w.cloudProfile,
      Event.logInfo ("Using AWS account ID hash (" ++ customer_id ++ ") for customer id")])
  else (st, [])

/-- Outcome of a collaborator `start()` call. -/
def startOutcome (w : World) : Outcome :=
  match w.startExc with
  | some e => Outcome.raised e
  | none => Outcome.ok

/-- Model of `ArgoClusterManager.install`. -/
def install (w : World) (st : PState) : PState × List Event × Outcome :=
  let ev0 := [Event.configConstructed ("ClusterInstallConfig"),
              Event.defaultOrWizard ("ClusterInstallConfig"),
              Event.validateCalled ("ClusterInstallConfig")]
  let cd := continue_or_die w.validateErrors
  match cd.2 with
  | Outcome.ok =>
    let r := ensure_customer_id w st
    (r.1, ev0 ++ cd.1 ++ r.2 ++
      [Event.collabConstructed ("ClusterInstaller"), Event.setClusterProvider,
       Event.collabStart ("ClusterInstaller")],
     startOutcome w)
  | out => (st, ev0 ++ cd.1, out)

/-- Model of `ArgoClusterManager.pause`. -/
def pause (w : World) (st : PState) : PState × List Event × Outcome :=
  let ev0 := [Event.configConstructed ("ClusterPauseConfig"),
              Event.defaultOrWizard ("ClusterPauseConfig"),
              Event.validateCalled ("ClusterPauseConfig")]
  let cd := continue_or_die w.validateErrors
  match cd.2 with
  | Outcome.ok =>
    let r := ensure_customer_id w st
    (r.1, ev0 ++ cd.1 ++ r.2 ++
      [Event.collabConstructed ("ClusterPauser"), Event.collabStart ("ClusterPauser")],
     startOutcome w)
  | out => (st, ev0 ++ cd.1, out)

/-- Model of `ArgoClusterManager.resume`. -/
def resume (w : World) (st : PState) : PState × List Event × Outcome :=
  let ev0 := [Event.configConstructed ("ClusterRestartConfig"),
              Event.defaultOrWizard ("ClusterRestartConfig"),
              Event.validateCalled ("ClusterRestartConfig")]
  let cd := continue_or_die w.validateErrors
  match cd.2 with
  | Outcome.ok =>
    let r := ensure_customer_id w st
    (r.1, ev0 ++ cd.1 ++ r.2 ++
      [Event.collabConstructed ("ClusterResumer"), Event.collabStart ("ClusterResumer")],
     startOutcome w)
  | out => (st, ev0 ++ cd.1, out)

/-- Model of `ArgoClusterManager.uninstall`. -/
def uninstall (w : World) (st : PState) : PState × List Event × Outcome :=
  let ev0 := [Event.configConstructed ("ClusterUninstallConfig"),
              Event.defaultOrWizard ("ClusterUninstallConfig"),
              Event.validateCalled ("ClusterUninstallConfig")]
  let cd := continue_or_die w.validateErrors
  match cd.2 with
  | Outcome.ok =>
    let r := ensure_customer_id w st
    (r.1, ev0 ++ cd.1 ++ r.2 ++
      [Event.collabConstructed ("ClusterUninstaller"), Event.collabStart ("ClusterUninstaller")],
     startOutcome w)
  | out => (st, ev0 ++ cd.1, out)

/-- Model of `ArgoClusterManager.upgrade`. -/
def upgrade (w : World) (st : PState) : PState × List Event × Outcome :=
  let ev0 := [Event.configConstructed ("ClusterUpgradeConfig"),
              Event.defaultOrWizard ("ClusterUpgradeConfig"),
              Event.validateCalled ("ClusterUpgradeConfig")]
  let cd := continue_or_die w.validateErrors
  match cd.2 with
  | Outcome.ok =>
    let r := ensure_customer_id w st
    (r.1, ev0 ++ cd.1 ++ r.2 ++
      [Event.collabConstructed ("ClusterUpgrader"), Event.collabStart ("ClusterUpgrader")],
     startOutcome w)
  | out => (st, ev0 ++ cd.1, out)

/-- Model of `ArgoClusterManager.download_cluster_credentials`. -/
def download_cluster_credentials (w : World) (st : PState) :
    PState × List Event × Outcome :=
  let ev0 := [Event.configConstructed ("ClusterMiscOperationConfig"),
              Event.defaultOrWizard ("ClusterMiscOperationConfig"),
              Event.validateCalled ("ClusterMiscOperationConfig")]
  let cd := continue_or_die w.validateErrors
  match cd.2 with
  | Outcome.ok =>
    let r := ensure_customer_id w st
    if w.dryRun then
      (r.1, ev0 ++ cd.1 ++ r.2 ++
        [Event.logInfo ("DRY RUN: downloading credentials for cluster " ++ w.clusterName ++ ".")],
       Outcome.ok)
    else
      (r.1, ev0 ++ cd.1 ++ r.2 ++
        [Event.collabConstructed ("CommonClusterOperations"),
         Event.downloadKubeConfig, Event.downloadKubeKey],
       Outcome.ok)
  | out => (st, ev0 ++ cd.1, out)

/-- Model of `ArgoClusterManager.install_platform_only`. Note: the result of
`validate()` is discarded (no `_continue_or_die` call), and `ret.items[0]`
raises an index error on an empty node list. -/
def install_platform_only (w : World) (st : PState) : PState × List Event × Outcome :=
  let st1 : PState :=
    { st with
      axCustomerId := some ("user-customer-id"),
      argoLogBucket := some w.clusterBucket,
      argoDataBucket := some w.clusterBucket,
      argoKubeConfigPath := some w.kubeconfig,
      argoS3AccessKeyId := some w.accessKey,
      argoS3AccessKeySecret := some w.secretKey,
      argoS3Endpoint := some w.bucketEndpoint }
  let ev0 := [Event.logInfo ("Using customer id: user-customer-id"),
              Event.configConstructed ("PlatformOnlyInstallConfig"),
              Event.loadKubeConfig, Event.listNodes]
  match w.nodes with
  | [] => (st1, ev0, Outcome.raised Exc.indexError)
  | n :: _ =>
    let region := n.labels.lookup ("failure-domain.beta.kubernetes.io/region")
    let zone := n.labels.lookup ("failure-domain.beta.kubernetes.io/zone")
    (st1, ev0 ++
      [Event.setRegion region, Event.setZone zone,
       Event.defaultOrWizard ("PlatformOnlyInstallConfig"),
       Event.cloudInit w.cloudProvider,
       Event.validateCalled ("PlatformOnlyInstallConfig"),
       Event.collabConstructed ("ClusterInstaller"),
       Event.updateAndSaveConfig,
       Event.installAndRunPlatform,
       Event.postInstall,
       Event.persistCreds],
     Outcome.ok)

/-- Python `args.command.replace("-", "_")` (single-character pattern):
replace every dash by an underscore. -/
def replaceDashUnderscore (s : String) : String :=
  String.mk (s.data.map (fun c => if c = '-' then '_' else c))

/-- Model of `getattr(self, cmd)`: the handler table, keyed by normalized command. -/
def runCommand (cmd : String) :
    Option (World → PState → PState × List Event × Outcome) :=
  if cmd = "install" then some install
  else if cmd = "pause" then some pause
  else if cmd = "resume" then some resume
  else if cmd = "uninstall" then some uninstall
  else if cmd = "upgrade" then some upgrade
  else if cmd = "download_cluster_credentials" then some download_cluster_credentials
  else if cmd = "install_platform_only" then some install_platform_only
  else none

/-- The `try/except` of `parse_args_and_run`: `NotImplementedError` goes to
`parser.error` (usage error, exit 2); any other exception is logged in full
and reported with a short colored message, with no forced exit. -/
def classify (r : PState × List Event × Outcome) : PState × List Event × Outcome :=
  match r.2.2 with
  | Outcome.raised (Exc.notImplemented msg) =>
      (r.1, r.2.1 ++ [Event.parserError msg], Outcome.exited 2)
  | Outcome.raised e =>
      (r.1, r.2.1 ++ [Event.logException e, Event.printRuntimeFailure e], Outcome.ok)
  | _ => r

/-- Model of `ArgoClusterManager.parse_args_and_run`, after argument parsing: `command`
is the chosen sub-command (or none). An unknown command would make
`getattr` raise `AttributeError`, caught by the generic handler. -/
def parse_args_and_run (w : World) (st : PState) (command : Option String) :
    PState × List Event × Outcome :=
  match command with
  | none => (st, [Event.printHelp], Outcome.ok)
  | some c =>
    match runCommand (replaceDashUnderscore c) with
    | some handler => classify (handler w st)
    | none => classify (st, [], Outcome.raised (Exc.generic ("AttributeError")))

/-- Is the event a construction or start of an operation collaborator? -/
def isCollabEvent : Event → Bool
  | Event.collabConstructed _ => true
  | Event.collabStart _ => true
  | _ => false

/-- No operation collaborator is constructed or started in the trace. -/
def noCollabEvents (evs : List Event) : Bool := evs.all (fun e => !isCollabEvent e)

/-- Is the event an informational log entry? -/
def isLogInfo : Event → Bool
  | Event.logInfo _ => true
  | _ => false

/-- Number of informational log entries in the trace. -/
def countLogInfo (evs : List Event) : Nat := (evs.filter isLogInfo).length

/-- Is the event one of the two credential fetch operations? -/
def isFetchEvent : Event → Bool
  | Event.downloadKubeConfig => true
  | Event.downloadKubeKey => true
  | _ => false

/-- Neither credential artifact is fetched in the trace. -/
def noFetchEvents (evs : List Event) : Bool := evs.all (fun e => !isFetchEvent e)


/-! Example inputs used by witnesses and counterexamples. -/

/-- A process state with none of the relevant environment variables set. -/
def emptyState : PState := ⟨none, none, none, none, none, none, none⟩

/-- A node carrying the region and zone labels read by the source. -/
def node1 : KubeNode :=
  ⟨[(("failure-domain.beta.kubernetes.io/region"), ("us-west-2")),
    (("failure-domain.beta.kubernetes.io/zone"), ("us-west-2a"))]⟩

/-- A well-behaved invocation: validation passes, AWS target, one node,
collaborators succeed. -/
def baseWorld : World where
  validateErrors := []
  cloudProfile := "default"
  targetCloudAws := true
  awsAccount := "123456789012"
  dryRun := false
  clusterName := "demo"
  startExc := none
  nodes := [node1]
  cloudProvider := "aws"
  clusterBucket := "bucket"
  kubeconfig := "kubeconfig"
  accessKey := "ak"
  secretKey := "sk"
  bucketEndpoint := "ep"

/-- An invocation whose config fails validation. -/
def badWorld : World := { baseWorld with validateErrors := [("cluster name is missing")] }

/-- An invocation whose collaborator signals "not implemented". -/
def notImplWorld : World :=
  { baseWorld with
    targetCloudAws := false
    startExc := some (Exc.notImplemented ("resume is not implemented")) }

/-- An invocation whose collaborator fails with a generic runtime error. -/
def runtimeErrWorld : World :=
  { baseWorld with
    targetCloudAws := false
    startExc := some (Exc.generic ("connection refused")) }

/-- A dry-run invocation of download-cluster-credentials. -/
def dryRunWorld : World := { baseWorld with dryRun := true }

/-- A non-AWS cloud target. -/
def gcpWorld : World := { baseWorld with targetCloudAws := false }

/-- A cluster reporting zero nodes. -/
def noNodesWorld : World := { baseWorld with nodes := [] }

/-- A process state with a customer id already present. -/
def presentState : PState := { emptyState with axCustomerId := some ("existing-id") }

/-- A process state whose customer id variable is set to the empty string. -/
def emptyIdState : PState := { emptyState with axCustomerId := some ("") }

/-! Helper lemmas. -/

theorem all_map_of_forall {α β : Type} (f : α → β) (p : β → Bool)
    (hp : ∀ a, p (f a) = true) (l : List α) : (l.map f).all p = true := by
  induction l with
  | nil => rfl
  | cons a l ih => simp [List.map_cons, List.all_cons, hp a, ih]

theorem noCollabEvents_append (a b : List Event) :
    noCollabEvents (a ++ b) = (noCollabEvents a && noCollabEvents b) := by
  simp [noCollabEvents, List.all_append]

theorem noCollabEvents_die (err : List String) :
    noCollabEvents (Event.printErrorsHeader ::
      (err.map Event.printMsg ++ [Event.printInvalidInputBanner])) = true := by
  simp [noCollabEvents, List.all_cons, List.all_append, isCollabEvent]

theorem noFetchEvents_append (a b : List Event) :
    noFetchEvents (a ++ b) = (noFetchEvents a && noFetchEvents b) := by
  simp [noFetchEvents, List.all_append]

theorem noFetchEvents_ensure (w : World) (st : PState) :
    noFetchEvents (ensure_customer_id w st).2 = true := by
  simp only [ensure_customer_id]
  split
  · rfl
  · split
    · rfl
    · rfl

theorem sha1_length (msg : List Nat) : (sha1 msg).length = 20 := by
  simp [sha1, word32Bytes]

theorem uuid5Bytes_length (ns : List Nat) (name : String) :
    (uuid5Bytes ns name).length = 16 := by
  simp [uuid5Bytes, sha1_length]

theorem hexCat_length (bs : List Nat) : (hexCat bs).length = 2 * bs.length := by
  induction bs with
  | nil => rfl
  | cons b l ih =>
    simp [hexCat, byteHex, String.length_append, ih]
    omega

theorem uuidFormat_length (bs : List Nat) (h : bs.length = 16) :
    (uuidFormat bs).length = 36 := by
  simp [uuidFormat, String.length_append, hexCat_length, h,
        show String.length ("-") = 1 from rfl]

theorem uuid5str_length (ns : List Nat) (name : String) :
    (uuid5str ns name).length = 36 :=
  uuidFormat_length _ (uuid5Bytes_length ns name)


/-! Claim theorems. -/

/-- C1 (amended): for the six handlers that route the result of `validate()`
through `_continue_or_die` (install, pause, resume, uninstall, upgrade,
download_cluster_credentials), a non-empty error sequence makes the process
exit with status 1 and no operation collaborator is constructed or started.
`install_platform_only` is excluded: it discards the result of `validate()`. -/
theorem validation_failure_gates_standard_handlers (w : World) (st : PState)
    (h : w.validateErrors ≠ []) :
    ((install w st).2.2 = Outcome.exited 1 ∧ noCollabEvents (install w st).2.1 = true) ∧
    ((pause w st).2.2 = Outcome.exited 1 ∧ noCollabEvents (pause w st).2.1 = true) ∧
    ((resume w st).2.2 = Outcome.exited 1 ∧ noCollabEvents (resume w st).2.1 = true) ∧
    ((uninstall w st).2.2 = Outcome.exited 1 ∧ noCollabEvents (uninstall w st).2.1 = true) ∧
    ((upgrade w st).2.2 = Outcome.exited 1 ∧ noCollabEvents (upgrade w st).2.1 = true) ∧
    ((download_cluster_credentials w st).2.2 = Outcome.exited 1 ∧
      noCollabEvents (download_cluster_credentials w st).2.1 = true) := by
  obtain ⟨a, l, hE⟩ := List.exists_cons_of_ne_nil h
  refine ⟨⟨?_, ?_⟩, ⟨?_, ?_⟩, ⟨?_, ?_⟩, ⟨?_, ?_⟩, ⟨?_, ?_⟩, ?_, ?_⟩ <;>
    simp [install, pause, resume, uninstall, upgrade, download_cluster_credentials,
          continue_or_die, hE, noCollabEvents, isCollabEvent,
          List.all_cons, List.all_append]

/-- C1 witness: a concrete invalid config aborts all six handlers. -/
theorem validation_failure_gates_standard_handlers_witness :
    ((install badWorld emptyState).2.2 = Outcome.exited 1 ∧
      noCollabEvents (install badWorld emptyState).2.1 = true) ∧
    ((pause badWorld emptyState).2.2 = Outcome.exited 1 ∧
      noCollabEvents (pause badWorld emptyState).2.1 = true) ∧
    ((resume badWorld emptyState).2.2 = Outcome.exited 1 ∧
      noCollabEvents (resume badWorld emptyState).2.1 = true) ∧
    ((uninstall badWorld emptyState).2.2 = Outcome.exited 1 ∧
      noCollabEvents (uninstall badWorld emptyState).2.1 = true) ∧
    ((upgrade badWorld emptyState).2.2 = Outcome.exited 1 ∧
      noCollabEvents (upgrade badWorld emptyState).2.1 = true) ∧
    ((download_cluster_credentials badWorld emptyState).2.2 = Outcome.exited 1 ∧
      noCollabEvents (download_cluster_credentials badWorld emptyState).2.1 = true) :=
  validation_failure_gates_standard_handlers badWorld emptyState (by decide)

/-- C1 counterexample: with a non-empty `validate()` result,
`install_platform_only` neither exits nor aborts: it still constructs the
`ClusterInstaller` collaborator and returns normally, because the source
discards the return value of `validate()` (no `_continue_or_die` call). -/
theorem install_platform_only_ignores_validation_failure :
    badWorld.validateErrors ≠ [] ∧
    (install_platform_only badWorld emptyState).2.2 = Outcome.ok ∧
    Event.collabConstructed ("ClusterInstaller") ∈
      (install_platform_only badWorld emptyState).2.1 := by
  refine ⟨by decide, by decide, by decide⟩

/-- C2: in `parse_args_and_run`, a handler outcome of `NotImplementedError`
is routed to the parser's error mechanism (usage error, exit status 2), while
any other exception is logged in full, reported with a short colored message,
and the process is not forced to a non-zero status (normal return). -/
theorem dispatcher_failure_classification (w : World) (st : PState) (c : String)
    (hnd : World → PState → PState × List Event × Outcome)
    (hc : runCommand (replaceDashUnderscore c) = some hnd) :
    (∀ msg, (hnd w st).2.2 = Outcome.raised (Exc.notImplemented msg) →
      parse_args_and_run w st (some c) =
        ((hnd w st).1, (hnd w st).2.1 ++ [Event.parserError msg], Outcome.exited 2)) ∧
    (∀ e, (hnd w st).2.2 = Outcome.raised e → (∀ m, e ≠ Exc.notImplemented m) →
      parse_args_and_run w st (some c) =
        ((hnd w st).1, (hnd w st).2.1 ++ [Event.logException e, Event.printRuntimeFailure e],
         Outcome.ok)) := by
  constructor
  · intro msg hmsg
    simp [parse_args_and_run, hc, classify, hmsg]
  · intro e he hne
    cases e with
    | notImplemented m => exact absurd rfl (hne m)
    | generic m => simp [parse_args_and_run, hc, classify, he]
    | indexError => simp [parse_args_and_run, hc, classify, he]

/-- C2 witness: a not-implemented resume exits 2 through the parser error
path; a generic runtime failure is logged and reported with a normal exit. -/
theorem dispatcher_failure_classification_witness :
    parse_args_and_run notImplWorld emptyState (some ("resume")) =
      ((resume notImplWorld emptyState).1,
       (resume notImplWorld emptyState).2.1 ++
         [Event.parserError ("resume is not implemented")],
       Outcome.exited 2) ∧
    parse_args_and_run runtimeErrWorld emptyState (some ("resume")) =
      ((resume runtimeErrWorld emptyState).1,
       (resume runtimeErrWorld emptyState).2.1 ++
         [Event.logException (Exc.generic ("connection refused")),
          Event.printRuntimeFailure (Exc.generic ("connection refused"))],
       Outcome.ok) :=
  ⟨(dispatcher_failure_classification notImplWorld emptyState ("resume") resume rfl).1
      ("resume is not implemented") (by decide),
   (dispatcher_failure_classification runtimeErrWorld emptyState ("resume") resume rfl).2
      (Exc.generic ("connection refused")) (by decide)
      (fun m hm => Exc.noConfusion hm)⟩

/-- C3: with no pre-existing identity and an AWS target, the customer id is
`str(uuid5(NAMESPACE_OID, account))`: the same account always produces the
same id (also across separate derivations), the id always has 36 characters,
and for account "123456789012" it is the fixed value
"01067f59-6ffc-5a5c-b5e2-b50d87d7ae3d". -/
theorem customer_id_derivation_deterministic (w w' : World) (st st' : PState)
    (h : pyTruthy st.axCustomerId = false) (h' : pyTruthy st'.axCustomerId = false)
    (ha : w.targetCloudAws = true) (ha' : w'.targetCloudAws = true)
    (hacct : w.awsAccount = w'.awsAccount) :
    (ensure_customer_id w st).1.axCustomerId =
      some (uuid5str namespaceOIDBytes w.awsAccount) ∧
    (ensure_customer_id w st).1.axCustomerId = (ensure_customer_id w' st').1.axCustomerId ∧
    (uuid5str namespaceOIDBytes w.awsAccount).length = 36 ∧
    (w.awsAccount = ("123456789012") →
      (ensure_customer_id w st).1.axCustomerId =
        some ("01067f59-6ffc-5a5c-b5e2-b50d87d7ae3d")) := by
  refine ⟨?_, ?_, uuid5str_length _ _, ?_⟩
  · simp [ensure_customer_id, h, ha]
  · simp [ensure_customer_id, h, ha, h', ha', hacct]
  · intro hacc
    simp only [ensure_customer_id, h, ha, hacc]
    simp only [Bool.false_eq_true, if_false, if_true]
    exact congrArg some (by decide)

/-- C3 witness: the concrete scenario of the claim. -/
theorem customer_id_derivation_deterministic_witness :
    (ensure_customer_id baseWorld emptyState).1.axCustomerId =
      some (uuid5str namespaceOIDBytes baseWorld.awsAccount) ∧
    (ensure_customer_id baseWorld emptyState).1.axCustomerId =
      (ensure_customer_id baseWorld emptyState).1.axCustomerId ∧
    (uuid5str namespaceOIDBytes baseWorld.awsAccount).length = 36 ∧
    (baseWorld.awsAccount = ("123456789012") →
      (ensure_customer_id baseWorld emptyState).1.axCustomerId =
        some ("01067f59-6ffc-5a5c-b5e2-b50d87d7ae3d")) :=
  customer_id_derivation_deterministic baseWorld baseWorld emptyState emptyState
    rfl rfl rfl rfl rfl

/-- C4: when a (truthy) customer identity is already present,
`_ensure_customer_id` returns at once with only a log line, without calling
the cloud identity accessor and without changing the stored value; when the
target cloud is not AWS and no identity is set, it is a no-op (state
unchanged, no events, no failure). -/
theorem ensure_customer_id_short_circuit (w : World) (st : PState) :
    (pyTruthy st.axCustomerId = true →
      ensure_customer_id w st =
        (st, [Event.logInfo (("Using customer ID ") ++ st.axCustomerId.getD (""))])) ∧
    (pyTruthy st.axCustomerId = false → w.targetCloudAws = false →
      ensure_customer_id w st = (st, [])) := by
  constructor
  · intro h
    simp [ensure_customer_id, h]
  · intro h1 h2
    simp [ensure_customer_id, h1, h2]

/-- C4 witness: a present identity short-circuits; a non-AWS target with no
identity is a no-op. -/
theorem ensure_customer_id_short_circuit_witness :
    ensure_customer_id baseWorld presentState =
      (presentState,
       [Event.logInfo (("Using customer ID ") ++ presentState.axCustomerId.getD (""))]) ∧
    ensure_customer_id gcpWorld emptyState = (emptyState, []) :=
  ⟨(ensure_customer_id_short_circuit baseWorld presentState).1 (by decide),
   (ensure_customer_id_short_circuit gcpWorld emptyState).2 (by decide) (by decide)⟩

/-- C5 (amended): for a valid config with the dry-run flag set,
`download_cluster_credentials` never invokes the kubeconfig/kube-key fetch
operations and emits exactly one informational log entry beyond whatever
customer-identity resolution itself logs or accesses; with the flag unset,
both credential artifacts are fetched. -/
theorem download_credentials_dry_run_gate (w : World) (st : PState)
    (hv : w.validateErrors = []) :
    (w.dryRun = true →
      download_cluster_credentials w st =
        ((ensure_customer_id w st).1,
         [Event.configConstructed ("ClusterMiscOperationConfig"),
          Event.defaultOrWizard ("ClusterMiscOperationConfig"),
          Event.validateCalled ("ClusterMiscOperationConfig")] ++
           ((ensure_customer_id w st).2 ++
            [Event.logInfo (("DRY RUN: downloading credentials for cluster ") ++
              w.clusterName ++ ("."))]),
         Outcome.ok) ∧
      noFetchEvents (download_cluster_credentials w st).2.1 = true) ∧
    (w.dryRun = false →
      Event.downloadKubeConfig ∈ (download_cluster_credentials w st).2.1 ∧
      Event.downloadKubeKey ∈ (download_cluster_credentials w st).2.1 ∧
      (download_cluster_credentials w st).2.2 = Outcome.ok) := by
  constructor
  · intro hd
    have h1 : download_cluster_credentials w st =
        ((ensure_customer_id w st).1,
         [Event.configConstructed ("ClusterMiscOperationConfig"),
          Event.defaultOrWizard ("ClusterMiscOperationConfig"),
          Event.validateCalled ("ClusterMiscOperationConfig")] ++
           ((ensure_customer_id w st).2 ++
            [Event.logInfo (("DRY RUN: downloading credentials for cluster ") ++
              w.clusterName ++ ("."))]),
         Outcome.ok) := by
      simp [download_cluster_credentials, continue_or_die, hv, hd]
    refine ⟨h1, ?_⟩
    rw [h1]
    show noFetchEvents
      ([Event.configConstructed ("ClusterMiscOperationConfig"),
        Event.defaultOrWizard ("ClusterMiscOperationConfig"),
        Event.validateCalled ("ClusterMiscOperationConfig")] ++
         ((ensure_customer_id w st).2 ++
          [Event.logInfo (("DRY RUN: downloading credentials for cluster ") ++
            w.clusterName ++ ("."))])) = true
    simp only [noFetchEvents_append, noFetchEvents_ensure]
    rfl
  · intro hd
    refine ⟨?_, ?_, ?_⟩ <;>
      simp [download_cluster_credentials, continue_or_die, hv, hd]

/-- C5 witness: the dry-run gate and the real fetch path at concrete inputs. -/
theorem download_credentials_dry_run_gate_witness :
    (download_cluster_credentials dryRunWorld emptyState =
        ((ensure_customer_id dryRunWorld emptyState).1,
         [Event.configConstructed ("ClusterMiscOperationConfig"),
          Event.defaultOrWizard ("ClusterMiscOperationConfig"),
          Event.validateCalled ("ClusterMiscOperationConfig")] ++
           ((ensure_customer_id dryRunWorld emptyState).2 ++
            [Event.logInfo (("DRY RUN: downloading credentials for cluster ") ++
              dryRunWorld.clusterName ++ ("."))]),
         Outcome.ok) ∧
      noFetchEvents (download_cluster_credentials dryRunWorld emptyState).2.1 = true) ∧
    (Event.downloadKubeConfig ∈ (download_cluster_credentials baseWorld emptyState).2.1 ∧
      Event.downloadKubeKey ∈ (download_cluster_credentials baseWorld emptyState).2.1 ∧
      (download_cluster_credentials baseWorld emptyState).2.2 = Outcome.ok) :=
  ⟨(download_credentials_dry_run_gate dryRunWorld emptyState rfl).1 rfl,
   (download_credentials_dry_run_gate baseWorld emptyState rfl).2 rfl⟩

/-- C5 counterexample: with dry-run set, a valid config, an AWS target and no
pre-existing identity, the call emits two informational log entries (the
identity hash line and the dry-run line) and invokes the cloud identity
service, refuting "exactly one informational log entry" and "no network
access occurs". -/
theorem dry_run_second_log_and_identity_access :
    dryRunWorld.dryRun = true ∧ dryRunWorld.validateErrors = [] ∧
    countLogInfo (download_cluster_credentials dryRunWorld emptyState).2.1 = 2 ∧
    Event.getCallerIdentity ("default") ∈
      (download_cluster_credentials dryRunWorld emptyState).2.1 := by
  refine ⟨rfl, rfl, by decide, by decide⟩

/-- C6: with no command token, `parse_args_and_run` prints the help text and
returns normally: no failure, no handler events, no state change. -/
theorem no_command_prints_help_and_succeeds (w : World) (st : PState) :
    parse_args_and_run w st none = (st, [Event.printHelp], Outcome.ok) := rfl

/-- C7: dispatch replaces every dash in the command token by an underscore
and routes to the handler of exactly that name; in particular
"download-cluster-credentials" runs `download_cluster_credentials` (and
"install-platform-only" runs `install_platform_only`). -/
theorem dispatch_normalizes_dash_to_underscore (w : World) (st : PState) :
    replaceDashUnderscore ("download-cluster-credentials") =
      ("download_cluster_credentials") ∧
    runCommand ("download_cluster_credentials") = some download_cluster_credentials ∧
    parse_args_and_run w st (some ("download-cluster-credentials")) =
      classify (download_cluster_credentials w st) ∧
    replaceDashUnderscore ("install-platform-only") = ("install_platform_only") ∧
    parse_args_and_run w st (some ("install-platform-only")) =
      classify (install_platform_only w st) :=
  ⟨by decide, rfl, rfl, by decide, rfl⟩

/-- C8: `_continue_or_die` on a non-empty error sequence prints a header,
each error in order, and a failure banner, then exits with status 1; on the
empty sequence it returns normally with no output. -/
theorem continue_or_die_spec (err : List String) (h : err ≠ []) :
    continue_or_die err =
      (Event.printErrorsHeader ::
        (err.map Event.printMsg ++ [Event.printInvalidInputBanner]),
       Outcome.exited 1) ∧
    continue_or_die [] = ([], Outcome.ok) := by
  constructor
  · simp [continue_or_die, h]
  · rfl

/-- C8 witness: concrete error list. -/
theorem continue_or_die_spec_witness :
    continue_or_die [("bad cluster name")] =
      (Event.printErrorsHeader ::
        ([("bad cluster name")].map Event.printMsg ++ [Event.printInvalidInputBanner]),
       Outcome.exited 1) ∧
    continue_or_die [] = ([], Outcome.ok) :=
  continue_or_die_spec [("bad cluster name")] (by decide)

/-- C9: an empty-string customer id in the environment is falsy, so
`_ensure_customer_id` treats it as absent: on an AWS target it queries the
identity service and overwrites the stored value with the derived hash. -/
theorem empty_customer_id_treated_as_absent (w : World) (st : PState)
    (h : st.axCustomerId = some ("")) (ha : w.targetCloudAws = true) :
    ensure_customer_id w st =
      ({ st with axCustomerId := some (uuid5str namespaceOIDBytes w.awsAccount) },
       [Event.getCallerIdentity w.cloudProfile,
        Event.logInfo (("Using AWS account ID hash (") ++
          uuid5str namespaceOIDBytes w.awsAccount ++ (") for customer id"))]) := by
  simp [ensure_customer_id, pyTruthy, h, ha]

/-- C9 witness: concrete empty-string identity is overwritten. -/
theorem empty_customer_id_treated_as_absent_witness :
    ensure_customer_id baseWorld emptyIdState =
      ({ emptyIdState with
          axCustomerId := some (uuid5str namespaceOIDBytes baseWorld.awsAccount) },
       [Event.getCallerIdentity baseWorld.cloudProfile,
        Event.logInfo (("Using AWS account ID hash (") ++
          uuid5str namespaceOIDBytes baseWorld.awsAccount ++ (") for customer id"))]) :=
  empty_customer_id_treated_as_absent baseWorld emptyIdState rfl rfl

/-- C10: `install_platform_only` reads the region and zone labels of the
first node only; with zero nodes it raises an index error before any config
resolution (`default_or_wizard`), validation, or install work, and the
dispatcher classifies that failure as a generic runtime error (logged and
reported, normal exit). -/
theorem platform_only_first_node_and_no_node_failure (w : World) (st : PState) :
    (w.nodes = [] →
      (install_platform_only w st).2.2 = Outcome.raised Exc.indexError ∧
      (∀ name, Event.defaultOrWizard name ∉ (install_platform_only w st).2.1) ∧
      (∀ name, Event.validateCalled name ∉ (install_platform_only w st).2.1) ∧
      noCollabEvents (install_platform_only w st).2.1 = true ∧
      (parse_args_and_run w st (some ("install-platform-only"))).2.2 = Outcome.ok ∧
      Event.logException Exc.indexError ∈
        (parse_args_and_run w st (some ("install-platform-only"))).2.1) ∧
    (∀ n rest, w.nodes = n :: rest →
      Event.setRegion (n.labels.lookup ("failure-domain.beta.kubernetes.io/region")) ∈
        (install_platform_only w st).2.1 ∧
      Event.setZone (n.labels.lookup ("failure-domain.beta.kubernetes.io/zone")) ∈
        (install_platform_only w st).2.1) := by
  have hp : parse_args_and_run w st (some ("install-platform-only")) =
      classify (install_platform_only w st) := rfl
  constructor
  · intro hE
    refine ⟨?_, ?_, ?_, ?_, ?_, ?_⟩ <;>
      simp [install_platform_only, hE, hp, classify, noCollabEvents, isCollabEvent,
            List.all_cons]
  · intro n rest hE
    constructor <;> simp [install_platform_only, hE]

/-- C10 witness: zero nodes raise and are soft-reported; with one node its
labels are the ones extracted. -/
theorem platform_only_first_node_and_no_node_failure_witness :
    (install_platform_only noNodesWorld emptyState).2.2 = Outcome.raised Exc.indexError ∧
    (parse_args_and_run noNodesWorld emptyState (some ("install-platform-only"))).2.2 =
      Outcome.ok ∧
    Event.setRegion (node1.labels.lookup ("failure-domain.beta.kubernetes.io/region")) ∈
      (install_platform_only baseWorld emptyState).2.1 :=
  ⟨((platform_only_first_node_and_no_node_failure noNodesWorld emptyState).1 rfl).1,
   ((platform_only_first_node_and_no_node_failure noNodesWorld emptyState).1
      rfl).2.2.2.2.1,
   ((platform_only_first_node_and_no_node_failure baseWorld emptyState).2 node1 [] rfl).1⟩

end ArgoModel
